import Mathlib

/-!
Verification of the indicator-definition resolver, filter engine, and
chart builder of the Team 15 environmental-justice dashboard
(`strmlit-code/app.py`), shallowly embedded in Lean.

Column names and descriptions are Lean `String`s; association lists stand
for the Python dicts; the resolver's prefix loop is embedded as a
recursion over the ordered list of recognized prefixes, preserving the
source's control flow (exact match first, then first matching recognized
name-leader, then the fixed fallback).
-/

namespace Dashboard

/-- Association-list lookup, modelling Python `dict` membership and
`dict[...]` / `dict.get(...)` access for the literal dicts in the source. -/
def lookupAssoc (xs : List (String × String)) (k : String) : Option String :=
  match xs with
  | [] => none
  | (k', v) :: rest => if k = k' then some v else lookupAssoc rest k

/-- `startswith s p` models Python `s.startswith(p)` on character lists. -/
def startswith : List Char → List Char → Bool
  | _, [] => true
  | [], _ :: _ => false
  | c :: cs, p :: ps => c = p && startswith cs ps

/-- `base_definitions` from `app.py` lines 71–173: the exact-match table. -/
def base_definitions : List (String × String) := [
  ("STATEFP", "State FIPS code (2-digit code identifying the state)."),
  ("COUNTYFP", "County FIPS code (3-digit code identifying the county)."),
  ("TRACTCE", "Census tract code (6-digit identifier within the county)."),
  ("AFFGEOID", "Full Census geographic identifier used by the Census API."),
  ("GEOID", "Full Census tract ID (STATEFP + COUNTYFP + TRACTCE)."),
  ("GEOID_2020", "2020 full Census tract ID."),
  ("COUNTY", "County name."),
  ("StateDesc", "State name (New Mexico)."),
  ("STATEABBR", "State abbreviation (NM)."),
  ("LOCATION", "Text description of the census tract location."),
  ("SPL_EJI", "State percentile ranking for the overall Environmental Justice Index (higher = more burdened)."),
  ("RPL_EJI", "National percentile ranking for the overall Environmental Justice Index (higher = more burdened)."),
  ("SPL_SER", "State percentile ranking for combined social and environmental risk."),
  ("SPL_EJI_CBM", "State percentile for cumulative EJ burden (combined)."),
  ("RPL_EJI_CBM", "National percentile for cumulative EJ burden (combined)."),
  ("SPL_SVM", "State percentile for overall social vulnerability metrics domain."),
  ("RPL_SVM", "National percentile for overall social vulnerability metrics domain."),
  ("SPL_SVM_DOM1", "State percentile for Social Vulnerability Domain 1 (e.g., socioeconomic)."),
  ("SPL_SVM_DOM2", "State percentile for Social Vulnerability Domain 2 (e.g., household composition)."),
  ("SPL_SVM_DOM3", "State percentile for Social Vulnerability Domain 3 (e.g., minority status & language)."),
  ("SPL_SVM_DOM4", "State percentile for Social Vulnerability Domain 4 (e.g., housing & transportation)."),
  ("SPL_EBM", "State percentile for overall environmental burden metrics domain."),
  ("RPL_EBM", "National percentile for overall environmental burden metrics domain."),
  ("SPL_EBM_DOM1", "State percentile for Environmental Domain 1 (e.g., air pollution)."),
  ("SPL_EBM_DOM2", "State percentile for Environmental Domain 2 (e.g., water or waste facilities)."),
  ("SPL_EBM_DOM3", "State percentile for Environmental Domain 3."),
  ("SPL_EBM_DOM4", "State percentile for Environmental Domain 4."),
  ("SPL_EBM_DOM5", "State percentile for Environmental Domain 5."),
  ("SPL_CBM", "State percentile for overall cumulative burden metrics domain."),
  ("RPL_CBM", "National percentile for overall cumulative burden metrics domain."),
  ("SPL_CBM_DOM1", "State percentile for Cumulative Burden Domain 1."),
  ("SPL_CBM_DOM2", "State percentile for Cumulative Burden Domain 2."),
  ("SPL_CBM_DOM3", "State percentile for Cumulative Burden Domain 3."),
  ("RPL_CBM_DOM1", "National percentile for Cumulative Burden Domain 1."),
  ("RPL_CBM_DOM2", "National percentile for Cumulative Burden Domain 2."),
  ("RPL_CBM_DOM3", "National percentile for Cumulative Burden Domain 3."),
  ("E_TOTPOP", "Estimated total population of the census tract."),
  ("M_TOTPOP", "Margin of error for total population."),
  ("E_DAYPOP", "Estimated daytime population (people present during the day)."),
  ("E_MINRTY", "Estimated number of minority (non-white) residents."),
  ("EPL_MINRTY", "Percentile rank of minority population proportion (0–1 scale)."),
  ("E_POV200", "Estimated number of people at or below 200% of the poverty level."),
  ("EPL_POV200", "Percentile rank of population at/under 200% poverty."),
  ("E_NOHSDP", "Estimated number of adults (25+) without a high school diploma."),
  ("EPL_NOHSDP", "Percentile rank for low educational attainment."),
  ("E_UNEMP", "Estimated number of unemployed individuals (16+ in labor force)."),
  ("EPL_UNEMP", "Percentile rank for unemployment."),
  ("E_RENTER", "Estimated number of renter-occupied housing units."),
  ("EPL_RENTER", "Percentile rank for renter housing."),
  ("E_HOUBDN", "Estimated number of households severely burdened by housing costs."),
  ("EPL_HOUBDN", "Percentile rank for housing cost burden."),
  ("E_UNINSUR", "Estimated number of people without health insurance."),
  ("EPL_UNINSUR", "Percentile rank for lack of health insurance."),
  ("E_NOINT", "Estimated number of households without internet access."),
  ("EPL_NOINT", "Percentile rank for lack of internet access."),
  ("E_AGE65", "Estimated number of people age 65 or older."),
  ("EPL_AGE65", "Percentile rank for older adult population."),
  ("E_AGE17", "Estimated number of people age 17 or younger."),
  ("EPL_AGE17", "Percentile rank for child/youth population."),
  ("E_DISABL", "Estimated number of people with a disability."),
  ("EPL_DISABL", "Percentile rank for disability prevalence."),
  ("E_LIMENG", "Estimated number of people who speak English less than 'very well'."),
  ("EPL_LIMENG", "Percentile rank for limited English proficiency."),
  ("E_MOBILE", "Estimated number of people living in mobile homes."),
  ("EPL_MOBILE", "Percentile rank for mobile home housing."),
  ("E_GROUPQ", "Estimated number of people in group quarters (e.g., dorms, prisons)."),
  ("EPL_GROUPQ", "Percentile rank for group quarters population."),
  ("AFAM", "Percent of population that is African American."),
  ("E_AFAM", "Estimated number of African American residents."),
  ("HISP", "Percent of population that is Hispanic/Latino."),
  ("E_HISP", "Estimated number of Hispanic/Latino residents."),
  ("ASIAN", "Percent of population that is Asian."),
  ("E_ASIAN", "Estimated number of Asian residents."),
  ("AIAN", "Percent of population that is American Indian/Alaska Native."),
  ("E_AIAN", "Estimated number of American Indian/Alaska Native residents."),
  ("NHPI", "Percent of population that is Native Hawaiian or Pacific Islander."),
  ("E_NHPI", "Estimated number of Native Hawaiian/Pacific Islander residents."),
  ("TWOMORE", "Percent of population identifying with two or more races."),
  ("E_TWOMORE", "Estimated number of residents of two or more races."),
  ("OTHERRACE", "Percent of population identifying as some other race."),
  ("E_OTHERRACE", "Estimated number of residents of some other race."),
  ("Tribe_PCT_Tract", "Percent of the tract area overlapping tribal lands."),
  ("Tribe_Names", "Names of tribes associated with lands in or near the tract."),
  ("Tribe_Flag", "Indicates whether the tract overlaps or is associated with tribal areas (1 = yes).")
]

/-- `suffix_descriptions` from `app.py` lines 176–199. -/
def suffix_descriptions : List (String × String) := [
  ("MINRTY", "minority population (non-white)."),
  ("POV200", "population at or below 200% of the poverty level."),
  ("NOHSDP", "adults without a high school diploma."),
  ("UNEMP", "unemployed individuals (16+ in the labor force)."),
  ("RENTER", "renter-occupied housing units."),
  ("HOUBDN", "households with severe housing cost burden."),
  ("UNINSUR", "people without health insurance."),
  ("NOINT", "households without internet access."),
  ("MOBILE", "people living in mobile homes."),
  ("GROUPQ", "people living in group quarters."),
  ("AGE65", "people age 65 or older."),
  ("AGE17", "people age 17 or younger."),
  ("DISABL", "people with a disability."),
  ("LIMENG", "people who speak English less than very well."),
  ("RFLD", "residential flooding risk."),
  ("SWND", "strong wind hazard risk."),
  ("TRND", "tornado hazard risk."),
  ("ASTHMA", "asthma-related health burden."),
  ("CANCER", "cancer-related health burden."),
  ("CHD", "coronary heart disease burden."),
  ("MHLTH", "mental health-related burden."),
  ("DIABETES", "diabetes-related health burden.")
]

/-- The ordered recognized name-leader list from `app.py` line 207. -/
def pfxList : List String := ["EPL_", "E_", "RPL_", "F_", "SPL_"]

/-- The chain of `if prefix == ...: return f"..."` clauses in the loop body
of `get_indicator_definition` (`app.py` lines 212–221): the sentence whose
lead phrase is selected by the matched name leader `p`, filled with `body`;
`none` models the Python loop body reaching none of its `return`
statements. -/
def sentenceTemplate (p body : String) : Option String :=
  if p = "E_" then some ("Estimated count related to " ++ body)
  else if p = "EPL_" then some ("Percentile rank (0–1) for " ++ body)
  else if p = "RPL_" then some ("National percentile rank for " ++ body)
  else if p = "F_" then some ("Flag/reliability indicator for " ++ body)
  else if p = "SPL_" then some ("State percentile rank for " ++ body)
  else none

/-- One iteration of the loop body after `col.startswith(prefix)` succeeded
(`app.py` lines 210–221): strip `p`, look the remainder up in the suffix
table `sd` with the raw remainder as default, and fill the sentence for
`p`. -/
def loopHit (sd : List (String × String)) (col p : String) : Option String :=
  let sfx := String.mk (col.data.drop p.data.length)
  sentenceTemplate p ((lookupAssoc sd sfx).getD sfx)

/-- The `for prefix in prefixes` loop of `get_indicator_definition`
(`app.py` lines 208–221), over an arbitrary suffix table `sd` and an
arbitrary ordered list of candidate name leaders. Each iteration: if
`col` starts with the candidate, run the loop body `loopHit`; a body that
reaches no `return` (`loopHit = none`) falls through to the next iteration
exactly as the Python `for` loop does. -/
def resolveLoop (sd : List (String × String)) : List String → String → Option String
  | [], _ => none
  | p :: ps, col =>
    if startswith col.data p.data then
      match loopHit sd col p with
      | some r => some r
      | none => resolveLoop sd ps col
    else resolveLoop sd ps col

/-- `get_indicator_definition` (`app.py` lines 201–224), generalized over
the two tables so that the independence of the exact-match branch from
the pattern machinery can be stated; the source function is the
instantiation `get_indicator_definition` below. -/
def resolveWith (base sd : List (String × String)) (col : String) : String :=
  match lookupAssoc base col with
  | some v => v
  | none => (resolveLoop sd pfxList col).getD "Not yet defined (dataset-specific indicator)."

/-- `get_indicator_definition` from `app.py` lines 201–224. -/
def get_indicator_definition (col : String) : String :=
  resolveWith base_definitions suffix_descriptions col

end Dashboard

namespace Dashboard

/-- Claim C1 (counterexample): the spec example's stated strings fail on the
code at the explicit inputs "E_MINRTY" and "EPL_UNEMP": both names are keys
of the exact-match table, which is consulted before the pattern fallback, so
the resolver returns the curated entries, not the pattern sentences the spec
example lists. -/
theorem resolver_example_counterexample :
    ¬ (get_indicator_definition "E_MINRTY" =
         "Estimated count related to minority population (non-white)." ∧
       get_indicator_definition "EPL_UNEMP" =
         "Percentile rank (0–1) for unemployed individuals (16+ in the labor force)." ∧
       get_indicator_definition "RANDOMCOL" =
         "Not yet defined (dataset-specific indicator).") := by
  decide

/-- Claim C1 (amended): on the spec's example inputs the resolver returns the
exact-match entries for "E_MINRTY" and "EPL_UNEMP" (which are keys of the
exact-match table) and the fixed fallback string for "RANDOMCOL". -/
theorem resolver_example_values :
    get_indicator_definition "E_MINRTY" =
      "Estimated number of minority (non-white) residents." ∧
    get_indicator_definition "EPL_UNEMP" =
      "Percentile rank for unemployment." ∧
    get_indicator_definition "RANDOMCOL" =
      "Not yet defined (dataset-specific indicator)." := by
  decide

/-- Claim C2: for every column name that is a key of the exact-match table,
the resolver returns exactly the stored curated description, and the result
does not depend on the suffix table — the pattern fallback is never engaged
(the theorem holds for every suffix table `sd`, and in particular for the
source's `suffix_descriptions`). -/
theorem exact_match_precedence (col v : String)
    (h : lookupAssoc base_definitions col = some v) :
    (∀ sd : List (String × String), resolveWith base_definitions sd col = v) ∧
    get_indicator_definition col = v := by
  refine ⟨fun sd => ?_, ?_⟩ <;> simp [resolveWith, get_indicator_definition, h]

theorem exact_match_precedence_witness :
    lookupAssoc base_definitions "GEOID" =
      some "Full Census tract ID (STATEFP + COUNTYFP + TRACTCE)." ∧
    (resolveWith base_definitions [] "GEOID" =
      "Full Census tract ID (STATEFP + COUNTYFP + TRACTCE)." ∧
     get_indicator_definition "GEOID" =
      "Full Census tract ID (STATEFP + COUNTYFP + TRACTCE).") :=
  ⟨by decide,
   (exact_match_precedence "GEOID" _ (by decide)).1 [],
   (exact_match_precedence "GEOID" _ (by decide)).2⟩

/-- Claim C4: the resolver is a total Lean function (it returns a string on
every input, modelling that the Python function never raises), and on every
column name that is neither a key of the exact-match table nor starts with
any of the five recognized name leaders it returns the fixed fallback
string. -/
theorem fallback_total (col : String)
    (hb : lookupAssoc base_definitions col = none)
    (hp : ∀ p ∈ pfxList, startswith col.data p.data = false) :
    get_indicator_definition col = "Not yet defined (dataset-specific indicator)." := by
  have h1 := hp "EPL_" (by decide)
  have h2 := hp "E_" (by decide)
  have h3 := hp "RPL_" (by decide)
  have h4 := hp "F_" (by decide)
  have h5 := hp "SPL_" (by decide)
  simp [get_indicator_definition, resolveWith, hb, pfxList, resolveLoop, h1, h2, h3, h4, h5]

theorem fallback_total_witness :
    (lookupAssoc base_definitions "RANDOMCOL" = none ∧
     ∀ p ∈ pfxList, startswith "RANDOMCOL".data p.data = false) ∧
    get_indicator_definition "RANDOMCOL" = "Not yet defined (dataset-specific indicator)." :=
  ⟨⟨by decide, by decide⟩, fallback_total "RANDOMCOL" (by decide) (by decide)⟩

/-- Character data of the five recognized name leaders, for rewriting. -/
lemma data_EPL : "EPL_".data = ['E', 'P', 'L', '_'] := rfl

lemma data_E : "E_".data = ['E', '_'] := rfl

lemma data_RPL : "RPL_".data = ['R', 'P', 'L', '_'] := rfl

lemma data_F : "F_".data = ['F', '_'] := rfl

lemma data_SPL : "SPL_".data = ['S', 'P', 'L', '_'] := rfl

/-- A string starting with a pattern of length at least two fixes its first
two characters. -/
lemma startswith_take_two (s t : List Char) (a b : Char)
    (h : startswith s (a :: b :: t) = true) : s.take 2 = [a, b] := by
  cases s with
  | nil => simp [startswith] at h
  | cons x u =>
    cases u with
    | nil => simp [startswith] at h
    | cons y w =>
      simp only [startswith, Bool.and_eq_true, decide_eq_true_eq] at h
      obtain ⟨rfl, rfl, -⟩ := h
      rfl

/-- The five recognized name leaders are pairwise exclusive: no string
starts with two distinct ones (their first two characters already
differ). -/
lemma pfx_exclusive (s : List Char) (p q : String) (hp : p ∈ pfxList)
    (hq : q ∈ pfxList) (hne : p ≠ q) (h : startswith s p.data = true) :
    startswith s q.data = false := by
  by_contra hq'
  rw [Bool.not_eq_false] at hq'
  simp only [pfxList, List.mem_cons, List.not_mem_nil, or_false] at hp hq
  rcases hp with rfl | rfl | rfl | rfl | rfl <;>
    rcases hq with rfl | rfl | rfl | rfl | rfl <;>
    first
    | exact hne rfl
    | (simp only [data_EPL, data_E, data_RPL, data_F, data_SPL] at h hq'
       have t1 := startswith_take_two _ _ _ _ h
       have t2 := startswith_take_two _ _ _ _ hq'
       rw [t1] at t2
       exact absurd t2 (by decide))

/-- If no candidate in the list start-matches `col`, the loop falls off the
end and yields no sentence. -/
lemma resolveLoop_eq_none (sd : List (String × String)) (L : List String)
    (col : String) (h : ∀ p ∈ L, startswith col.data p.data = false) :
    resolveLoop sd L col = none := by
  induction L with
  | nil => rfl
  | cons p ps ih =>
    have hp := h p (List.mem_cons_self p ps)
    simp only [resolveLoop, hp]
    exact ih fun q hq => h q (List.mem_cons_of_mem p hq)

/-- If exactly one candidate in the list start-matches `col` and its loop
body returns a sentence, the loop returns that candidate's sentence,
wherever it sits in the list. -/
lemma resolveLoop_eq_of_unique (sd : List (String × String)) (col : String) :
    ∀ (L : List String) (p : String), p ∈ L →
      startswith col.data p.data = true →
      (∀ q ∈ L, q ≠ p → startswith col.data q.data = false) →
      (loopHit sd col p).isSome = true →
      resolveLoop sd L col = loopHit sd col p := by
  intro L
  induction L with
  | nil => intro p hp; exact absurd hp (List.not_mem_nil p)
  | cons q qs ih =>
    intro p hp hsw huniq hsome
    by_cases hqp : q = p
    · subst hqp
      simp only [resolveLoop, hsw, if_true]
      cases hlh : loopHit sd col q with
      | some r => simp
      | none => rw [hlh] at hsome; simp at hsome
    · have hq : startswith col.data q.data = false :=
        huniq q (List.mem_cons_self q qs) hqp
      simp only [resolveLoop, hq, Bool.false_eq_true, if_false]
      have hp' : p ∈ qs := by
        rcases List.mem_cons.mp hp with rfl | hp'
        · exact absurd rfl hqp
        · exact hp'
      exact ih p hp' hsw (fun r hr hrp => huniq r (List.mem_cons_of_mem q hr) hrp) hsome

/-- Each of the five recognized name leaders reaches a `return` clause of the
loop body: its sentence is always produced. -/
lemma sentenceTemplate_isSome (p body : String) (hp : p ∈ pfxList) :
    (sentenceTemplate p body).isSome = true := by
  simp only [pfxList, List.mem_cons, List.not_mem_nil, or_false] at hp
  rcases hp with rfl | rfl | rfl | rfl | rfl <;> simp [sentenceTemplate]

lemma loopHit_isSome (sd : List (String × String)) (col p : String)
    (hp : p ∈ pfxList) : (loopHit sd col p).isSome = true :=
  sentenceTemplate_isSome p _ hp

lemma some_getD_of_isSome {α : Type} (o : Option α) (d : α)
    (h : o.isSome = true) : some (o.getD d) = o := by
  cases o with
  | none => simp at h
  | some a => rfl

/-- Claim C5: the five recognized name leaders are mutually exclusive — at
most one of them is a start of any given string — and consequently the
prefix loop returns the same result on any reordering of the candidate
list. -/
theorem resolver_pfx_exclusive_order_independent :
    (∀ (s : List Char) (p q : String), p ∈ pfxList → q ∈ pfxList → p ≠ q →
        startswith s p.data = true → startswith s q.data = false) ∧
    (∀ (sd : List (String × String)) (col : String) (L : List String),
        L.Perm pfxList → resolveLoop sd L col = resolveLoop sd pfxList col) := by
  refine ⟨pfx_exclusive, ?_⟩
  intro sd col L hperm
  by_cases hex : ∃ p ∈ pfxList, startswith col.data p.data = true
  · obtain ⟨p, hp, hsw⟩ := hex
    have huniq : ∀ q ∈ pfxList, q ≠ p → startswith col.data q.data = false :=
      fun q hq hqp => pfx_exclusive col.data p q hp hq (fun e => hqp e.symm) hsw
    have hsome := loopHit_isSome sd col p hp
    rw [resolveLoop_eq_of_unique sd col L p (hperm.mem_iff.mpr hp) hsw
          (fun q hq hqp => huniq q (hperm.mem_iff.mp hq) hqp) hsome,
        resolveLoop_eq_of_unique sd col pfxList p hp hsw huniq hsome]
  · push_neg at hex
    have hall : ∀ p ∈ pfxList, startswith col.data p.data = false := by
      intro p hp
      simpa using hex p hp
    rw [resolveLoop_eq_none sd L col (fun p hp => hall p (hperm.mem_iff.mp hp)),
        resolveLoop_eq_none sd pfxList col hall]

theorem resolver_pfx_exclusive_order_independent_witness :
    startswith "EPL_FOO".data "E_".data = false ∧
    resolveLoop [] ["SPL_", "F_", "RPL_", "E_", "EPL_"] "E_FOO" =
      resolveLoop [] pfxList "E_FOO" :=
  ⟨resolver_pfx_exclusive_order_independent.1 "EPL_FOO".data "EPL_" "E_"
      (by decide) (by decide) (by decide) (by decide),
   resolver_pfx_exclusive_order_independent.2 [] "E_FOO"
      ["SPL_", "F_", "RPL_", "E_", "EPL_"] (by decide)⟩

/-- A character list always starts with itself followed by anything. -/
lemma startswith_append (a b : List Char) : startswith (a ++ b) a = true := by
  induction a with
  | nil => cases b <;> rfl
  | cons c cs ih => simp [startswith, ih]

/-- Claim C3: for a column name built as a recognized name leader `p`
followed by remainder `sfx`, not a key of the exact-match table, the
resolver returns `p`'s sentence filled with the suffix table's entry for
`sfx` when there is one, and with the raw token `sfx` itself otherwise. -/
theorem pattern_resolution (p sfx : String) (hp : p ∈ pfxList)
    (hb : lookupAssoc base_definitions (p ++ sfx) = none) :
    (∀ m, lookupAssoc suffix_descriptions sfx = some m →
        some (get_indicator_definition (p ++ sfx)) = sentenceTemplate p m) ∧
    (lookupAssoc suffix_descriptions sfx = none →
        some (get_indicator_definition (p ++ sfx)) = sentenceTemplate p sfx) := by
  have hdata : (p ++ sfx).data = p.data ++ sfx.data := String.data_append p sfx
  have hsw : startswith (p ++ sfx).data p.data = true := by
    rw [hdata]; exact startswith_append _ _
  have huniq : ∀ q ∈ pfxList, q ≠ p → startswith (p ++ sfx).data q.data = false :=
    fun q hq hqp => pfx_exclusive _ p q hp hq (fun e => hqp e.symm) hsw
  have hsome := loopHit_isSome suffix_descriptions (p ++ sfx) p hp
  have hloop := resolveLoop_eq_of_unique suffix_descriptions (p ++ sfx) pfxList
    p hp hsw huniq hsome
  have hsfx : String.mk ((p ++ sfx).data.drop p.data.length) = sfx := by
    rw [hdata, List.drop_left]
  have hmain : get_indicator_definition (p ++ sfx) =
      (loopHit suffix_descriptions (p ++ sfx) p).getD
        "Not yet defined (dataset-specific indicator)." := by
    simp only [get_indicator_definition, resolveWith, hb, hloop]
  rw [loopHit] at hmain
  simp only [hsfx] at hmain
  constructor
  · intro m hm
    rw [hm, Option.getD_some] at hmain
    rw [hmain]
    exact some_getD_of_isSome _ _ (sentenceTemplate_isSome p m hp)
  · intro hm
    rw [hm, Option.getD_none] at hmain
    rw [hmain]
    exact some_getD_of_isSome _ _ (sentenceTemplate_isSome p sfx hp)

theorem pattern_resolution_witness :
    (lookupAssoc base_definitions ("EPL_" ++ "RFLD") = none ∧
     lookupAssoc suffix_descriptions "RFLD" = some "residential flooding risk." ∧
     some (get_indicator_definition ("EPL_" ++ "RFLD")) =
       sentenceTemplate "EPL_" "residential flooding risk.") ∧
    (lookupAssoc base_definitions ("F_" ++ "XYZQ") = none ∧
     lookupAssoc suffix_descriptions "XYZQ" = none ∧
     some (get_indicator_definition ("F_" ++ "XYZQ")) =
       sentenceTemplate "F_" "XYZQ") :=
  ⟨⟨by decide, by decide,
    (pattern_resolution "EPL_" "RFLD" (by decide) (by decide)).1
      "residential flooding risk." (by decide)⟩,
   ⟨by decide, by decide,
    (pattern_resolution "F_" "XYZQ" (by decide) (by decide)).2 (by decide)⟩⟩

/-!
Filter engine (`app.py` lines 312–347). A dataframe cell in the filter
column is modelled as `Option ℚ` (numeric column) or `Option String`
(categorical column): `none` is a missing (NaN) entry, for which both
pandas comparisons of the boolean mask are false, which `.min()`/`.max()`
skip, and which `.dropna()` removes. Finite numeric values are modelled as
rationals with their usual order. Rows are abstract (`α`), with `val`
projecting out the filter column's cell, so that filtering keeps whole
rows exactly as the boolean-mask selection does.
-/

/-- The row predicate of the numeric boolean mask
`(col >= lo) & (col <= hi)` (`app.py` lines 331–334): comparisons against
a missing entry are false. -/
def numericKeep (lo hi : ℚ) : Option ℚ → Bool
  | some v => decide (lo ≤ v) && decide (v ≤ hi)
  | none => false

/-- The numeric branch of the filter (`app.py` lines 331–334):
mask-and-select on the filter column. -/
def numericFilter {α : Type} (val : α → Option ℚ) (lo hi : ℚ)
    (rows : List α) : List α :=
  rows.filter fun r => numericKeep lo hi (val r)

/-- Pandas `.min()` over the filter column (`app.py` line 323): the least
non-missing value, or nothing when every entry is missing. -/
def colMin (col : List (Option ℚ)) : Option ℚ :=
  match col.filterMap id with
  | [] => none
  | x :: xs => some (xs.foldl min x)

/-- Pandas `.max()` over the filter column (`app.py` line 324). -/
def colMax (col : List (Option ℚ)) : Option ℚ :=
  match col.filterMap id with
  | [] => none
  | x :: xs => some (xs.foldl max x)

/-- The row predicate of the categorical selection
`filtered_data[filter_col].isin(selected_vals)` (`app.py` line 347): a
missing entry is a member of no selection. -/
def catKeep (allowed : List String) : Option String → Bool
  | some v => allowed.contains v
  | none => false

/-- The categorical branch of the filter (`app.py` line 347). -/
def catFilter {α : Type} (val : α → Option String) (allowed : List String)
    (rows : List α) : List α :=
  rows.filter fun r => catKeep allowed (val r)

/-- The default multiselect selection
`sorted(filtered_data[filter_col].dropna().unique().tolist())`
(`app.py` line 336): the distinct non-missing values of the column
(sorting does not affect membership, so deduplication order is not
modelled). -/
def distinctVals (col : List (Option String)) : List String :=
  (col.filterMap id).dedup

lemma foldl_min_le (t : List ℚ) : ∀ x v : ℚ, v = x ∨ v ∈ t →
    t.foldl min x ≤ v := by
  induction t with
  | nil =>
    intro x v hv
    rcases hv with rfl | h
    · exact le_refl v
    · exact absurd h (List.not_mem_nil v)
  | cons a t ih =>
    intro x v hv
    rw [List.foldl_cons]
    rcases hv with rfl | hv
    · exact le_trans (ih _ _ (Or.inl rfl)) (min_le_left _ _)
    · rcases List.mem_cons.mp hv with rfl | hv
      · exact le_trans (ih _ _ (Or.inl rfl)) (min_le_right _ _)
      · exact ih _ _ (Or.inr hv)

lemma le_foldl_max (t : List ℚ) : ∀ x v : ℚ, v = x ∨ v ∈ t →
    v ≤ t.foldl max x := by
  induction t with
  | nil =>
    intro x v hv
    rcases hv with rfl | h
    · exact le_refl v
    · exact absurd h (List.not_mem_nil v)
  | cons a t ih =>
    intro x v hv
    rw [List.foldl_cons]
    rcases hv with rfl | hv
    · exact le_trans (le_max_left _ _) (ih _ _ (Or.inl rfl))
    · rcases List.mem_cons.mp hv with rfl | hv
      · exact le_trans (le_max_right _ _) (ih _ _ (Or.inl rfl))
      · exact ih _ _ (Or.inr hv)

/-- Every non-missing value of the column is at least its `colMin`. -/
lemma colMin_le (col : List (Option ℚ)) (lo v : ℚ)
    (h : colMin col = some lo) (hv : some v ∈ col) : lo ≤ v := by
  have hv' : v ∈ col.filterMap id :=
    List.mem_filterMap.mpr ⟨some v, hv, rfl⟩
  rw [colMin] at h
  cases e : col.filterMap id with
  | nil => rw [e] at h; exact absurd h (by simp)
  | cons x xs =>
    rw [e] at h hv'
    have : lo = xs.foldl min x := (Option.some.injEq _ _ ▸ h).symm
    rw [this]
    exact foldl_min_le xs x v (by
      rcases List.mem_cons.mp hv' with rfl | hm
      · exact Or.inl rfl
      · exact Or.inr hm)

/-- Every non-missing value of the column is at most its `colMax`. -/
lemma le_colMax (col : List (Option ℚ)) (hi v : ℚ)
    (h : colMax col = some hi) (hv : some v ∈ col) : v ≤ hi := by
  have hv' : v ∈ col.filterMap id :=
    List.mem_filterMap.mpr ⟨some v, hv, rfl⟩
  rw [colMax] at h
  cases e : col.filterMap id with
  | nil => rw [e] at h; exact absurd h (by simp)
  | cons x xs =>
    rw [e] at h hv'
    have : hi = xs.foldl max x := (Option.some.injEq _ _ ▸ h).symm
    rw [this]
    exact le_foldl_max xs x v (by
      rcases List.mem_cons.mp hv' with rfl | hm
      · exact Or.inl rfl
      · exact Or.inr hm)

/-- Claim C6: the numeric filter keeps exactly the rows whose value in the
filter column is present and lies inside the closed interval, and in
particular the spec's example retains exactly the values 20 and 30 from
[10, 20, 30, 40] under the interval [20, 30]. -/
theorem numeric_filter_membership {α : Type} (val : α → Option ℚ)
    (lo hi : ℚ) (rows : List α) (r : α) :
    (r ∈ numericFilter val lo hi rows ↔
       r ∈ rows ∧ ∃ v, val r = some v ∧ lo ≤ v ∧ v ≤ hi) ∧
    numericFilter (fun c => c) 20 30
        [some (10 : ℚ), some 20, some 30, some 40] = [some 20, some 30] := by
  constructor
  · cases hv : val r with
    | none => simp [numericFilter, List.mem_filter, numericKeep, hv]
    | some v => simp [numericFilter, List.mem_filter, numericKeep, hv, and_assoc]
  · decide

theorem numeric_filter_membership_witness :
    (some (20 : ℚ) ∈ numericFilter (fun c => c) 20 30
        [some (10 : ℚ), some 20, some 30, some 40] ↔
       some (20 : ℚ) ∈ [some (10 : ℚ), some 20, some 30, some 40] ∧
       ∃ v, some (20 : ℚ) = some v ∧ 20 ≤ v ∧ v ≤ 30) ∧
    numericFilter (fun c => c) 20 30
        [some (10 : ℚ), some 20, some 30, some 40] = [some 20, some 30] :=
  numeric_filter_membership (fun c => c) 20 30
    [some (10 : ℚ), some 20, some 30, some 40] (some (20 : ℚ))

/-- Claim C7 (counterexample): full-range and full-set filters do not
preserve the row count on a dataset with a missing entry in the filter
column — the missing row fails the mask and is dropped, in both the
numeric and the categorical branch. -/
theorem full_range_identity_counterexample :
    (colMin [some (1 : ℚ), none] = some 1 ∧
     colMax [some (1 : ℚ), none] = some 1 ∧
     (numericFilter (fun c => c) 1 1 [some (1 : ℚ), none]).length ≠
       ([some (1 : ℚ), none] : List (Option ℚ)).length) ∧
    (distinctVals [some "a", none] = ["a"] ∧
     (catFilter (fun c => c) ["a"] [some "a", none]).length ≠
       ([some "a", none] : List (Option String)).length) := by
  decide

/-- Claim C7 (amended): when every row of the dataset has a non-missing
value in the filter column, the numeric filter at the column's true
[min, max] and the categorical filter at the full set of distinct
non-missing values each return the dataset unchanged — in particular with
its row count unchanged. -/
theorem full_range_full_set_identity {α : Type} :
    (∀ (val : α → Option ℚ) (lo hi : ℚ) (rows : List α),
       colMin (rows.map val) = some lo → colMax (rows.map val) = some hi →
       (∀ r ∈ rows, (val r).isSome = true) →
       numericFilter val lo hi rows = rows) ∧
    (∀ (val : α → Option String) (rows : List α),
       (∀ r ∈ rows, (val r).isSome = true) →
       catFilter val (distinctVals (rows.map val)) rows = rows) := by
  constructor
  · intro val lo hi rows hmin hmax hall
    rw [numericFilter, List.filter_eq_self]
    intro r hr
    obtain ⟨v, hv⟩ := Option.isSome_iff_exists.mp (hall r hr)
    have hmem : some v ∈ rows.map val := by
      rw [← hv]; exact List.mem_map_of_mem val hr
    rw [hv, numericKeep, Bool.and_eq_true, decide_eq_true_eq, decide_eq_true_eq]
    exact ⟨colMin_le _ _ _ hmin hmem, le_colMax _ _ _ hmax hmem⟩
  · intro val rows hall
    rw [catFilter, List.filter_eq_self]
    intro r hr
    obtain ⟨v, hv⟩ := Option.isSome_iff_exists.mp (hall r hr)
    have hmem : some v ∈ rows.map val := by
      rw [← hv]; exact List.mem_map_of_mem val hr
    rw [hv, catKeep]
    have : v ∈ distinctVals (rows.map val) := by
      rw [distinctVals, List.mem_dedup]
      exact List.mem_filterMap.mpr ⟨some v, hmem, rfl⟩
    simpa [List.contains] using this

theorem full_range_full_set_identity_witness :
    numericFilter (fun c => c) 10 40
        [some (10 : ℚ), some 20, some 30, some 40] =
      [some (10 : ℚ), some 20, some 30, some 40] ∧
    catFilter (fun c => c) (distinctVals [some "a", some "b"])
        [some "a", some "b"] = [some "a", some "b"] :=
  ⟨(full_range_full_set_identity (α := Option ℚ)).1 (fun c => c) 10 40
      [some (10 : ℚ), some 20, some 30, some 40] (by decide) (by decide)
      (by decide),
   (full_range_full_set_identity (α := Option String)).2 (fun c => c)
      [some "a", some "b"] (by decide)⟩

/-!
Chart builder (`app.py` lines 352–415). The plot section is embedded as a
function from the current selections to a render outcome: the declarative
chart specification handed to the plotting library, or one of the signalled
conditions (empty filtered data, missing y-axis selection), or nothing
rendered at all (`fig` left `None` with no message). The f-string titles of
the source are reproduced verbatim.
-/

/-- The keyword arguments of one `px.*` call: kind, axis encodings and
title. -/
structure ChartSpec where
  kind : String
  x : String
  y : Option String
  color : Option String
  title : String
deriving DecidableEq

/-- Outcome of the plot section for one interaction cycle. -/
inductive RenderResult where
  | noData
  | missingY
  | chart (c : ChartSpec)
  | nothing
deriving DecidableEq

/-- The plot section (`app.py` lines 354–415): the empty-data warning guard,
then dispatch on `plot_type` with the y-axis checks of the Line, Scatter
and Bar branches, the Histogram branch that never reads `y_col`, and the
Box branch that passes `y_col` through unchecked. -/
def renderPlot (isEmpty : Bool) (plotKind x_col : String)
    (y_col color_col : Option String) : RenderResult :=
  if isEmpty then .noData
  else if plotKind = "Line" then
    match y_col with
    | none => .missingY
    | some y => .chart ⟨"Line", x_col, some y, color_col,
        "Line Plot: " ++ y ++ " vs " ++ x_col⟩
  else if plotKind = "Scatter" then
    match y_col with
    | none => .missingY
    | some y => .chart ⟨"Scatter", x_col, some y, color_col,
        "Scatter Plot: " ++ y ++ " vs " ++ x_col⟩
  else if plotKind = "Bar" then
    match y_col with
    | none => .missingY
    | some y => .chart ⟨"Bar", x_col, some y, color_col,
        "Bar Plot: " ++ y ++ " vs " ++ x_col⟩
  else if plotKind = "Histogram" then
    .chart ⟨"Histogram", x_col, none, color_col, "Histogram of " ++ x_col⟩
  else if plotKind = "Box" then
    .chart ⟨"Box", x_col, y_col, color_col, "Box Plot"⟩
  else .nothing

/-- Claim C8: with data present, the Line, Scatter and Bar branches signal
the missing-axis condition when no y-axis is selected and construct no
chart, while the Box branch builds its chart without validating the y-axis
selection (for any `y_col`, present or absent). -/
theorem missing_y_axis_handling (x : String) (color : Option String) :
    (∀ k ∈ ["Line", "Scatter", "Bar"],
       renderPlot false k x none color = RenderResult.missingY) ∧
    (∀ y : Option String, renderPlot false "Box" x y color =
       RenderResult.chart ⟨"Box", x, y, color, "Box Plot"⟩) := by
  constructor
  · intro k hk
    rcases List.mem_cons.mp hk with rfl | hk
    · rfl
    rcases List.mem_cons.mp hk with rfl | hk
    · rfl
    rcases List.mem_cons.mp hk with rfl | hk
    · rfl
    · exact absurd hk (List.not_mem_nil k)
  · intro y
    rfl

theorem missing_y_axis_handling_witness :
    renderPlot false "Line" "GEOID" none none = RenderResult.missingY ∧
    renderPlot false "Box" "GEOID" none none =
      RenderResult.chart ⟨"Box", "GEOID", none, none, "Box Plot"⟩ :=
  ⟨(missing_y_axis_handling "GEOID" none).1 "Line" (by decide),
   (missing_y_axis_handling "GEOID" none).2 none⟩

/-- Claim C9: whenever filtering leaves zero rows, the plot section signals
the no-data-after-filtering warning and constructs no chart, whatever the
chart kind and axis selections — an empty filtered dataset never reaches
any chart-construction branch. -/
theorem empty_filter_skips_chart {α : Type} (filtered : List α)
    (h : filtered = []) (plotKind x_col : String)
    (y_col color_col : Option String) :
    renderPlot filtered.isEmpty plotKind x_col y_col color_col =
      RenderResult.noData ∧
    ∀ c : ChartSpec, renderPlot filtered.isEmpty plotKind x_col y_col color_col ≠
      RenderResult.chart c := by
  subst h
  exact ⟨rfl, fun c hc => RenderResult.noConfusion hc⟩

theorem empty_filter_skips_chart_witness :
    renderPlot (numericFilter (fun c => c) 2 3 [some (1 : ℚ)]).isEmpty
        "Histogram" "GEOID" none none = RenderResult.noData ∧
    ∀ c : ChartSpec,
      renderPlot (numericFilter (fun c => c) 2 3 [some (1 : ℚ)]).isEmpty
        "Histogram" "GEOID" none none ≠ RenderResult.chart c :=
  empty_filter_skips_chart (numericFilter (fun c => c) 2 3 [some (1 : ℚ)])
    (by decide) "Histogram" "GEOID" none none

/-!
Full render pass (claim C10). `app.py` is a straight-line script; its
render pass after a successful load evaluates, at lines 259 and 270, the
global name `ABBREV_DEFS`, which no statement of the script ever binds.
Python evaluation of an unbound global raises `NameError`, an unhandled
exception that aborts the render. The script's name binding is embedded as
the list of every module-level name `app.py` ever assigns, and global-name
evaluation as a lookup in that list.
-/

/-- Every module-level name bound anywhere in `app.py`: the three imports,
the cached loader, the upload/load bookkeeping, the two definition tables
and the resolver, the definitions-table loop variables, the sidebar
selections, the filter bookkeeping, the figure, and the MATLAB text.
`ABBREV_DEFS` is not among them. -/
def assignedNames : List String :=
  ["st", "pd", "px", "load_data", "uploaded_file", "data", "data_load_error",
   "e", "base_definitions", "suffix_descriptions",
   "get_indicator_definition", "col_list", "rows", "col", "all_cols",
   "plot_type", "x_col", "possible_y_cols", "y_col", "color_col",
   "filter_col", "filtered_data", "min_val", "max_val", "selected_range",
   "unique_vals", "selected_vals", "fig", "key", "value", "matlab_code"]

/-- Python evaluation of a global name: its value when the module ever
binds it, `NameError` otherwise. -/
def evalName (env : List String) (n : String) : Except String Unit :=
  if n ∈ env then Except.ok ()
  else Except.error ("NameError: name '" ++ n ++ "' is not defined")

/-- The first statement of the column-info block (`app.py` lines 256–261)
that reads `ABBREV_DEFS`. -/
def colInfoStep : Except String Unit := evalName assignedNames "ABBREV_DEFS"

/-- Claim C10 (code bug): the render pass does not complete — the column-info
block evaluates the never-bound global `ABBREV_DEFS` and raises `NameError`,
an unhandled exception, contradicting the spec's guarantee that no failure
is fatal once the dataset loads. -/
theorem abbrev_defs_not_bound :
    "ABBREV_DEFS" ∉ assignedNames ∧
    colInfoStep = Except.error "NameError: name 'ABBREV_DEFS' is not defined" :=
  ⟨by decide, by rfl⟩

end Dashboard
